import Mathlib

/-!
Shallow embedding of the signaling & room-state coordination server
(`apps/server/src/index.ts`) of the 3DViewer repository.

The server is single-threaded and event-driven: each inbound event
(`join`, `scene:action`, `signal`, disconnect) is handled atomically by
one handler run.  We embed the server's mutable module-level state
(`roomScenes`, `socketRooms`, plus the socket.io room membership used by
the disconnect cleanup) as an explicit `ServerState` record, and each
handler as a pure function from state (and event payload) to new state
plus the messages it emits and the acknowledgment it returns.

JavaScript `null`/`undefined` is embedded as `Option.none`.  Opaque
payloads (the serialized model string, transform and camera payloads,
signaling blobs) are embedded as `String`; a nullable payload is
`Option String`.  The one place the handler code can throw inside the
`scene:action` try-block is the expression `modelData.length` in the
`loadModel` broadcast, which throws a `TypeError` exactly when the
payload is `null`/`undefined`; we embed that throw explicitly (the
assignment to `roomScenes[roomId]` textually precedes it, so the state
write survives the throw).  The uncaught throw of the `signal` handler
(`data.signal.type` on a `null` signal) is embedded as `Except.error`.
-/

/-- Metadata of a loaded model, `{name, size, type}` in the source.
The derived default built by the `loadModel` case omits the `type`
field, so `type` is embedded as optional (`mtype`). -/
structure ModelMetadata where
  name : String
  size : Nat
  mtype : Option String
deriving DecidableEq, Repr

/-- Per-room scene state, `interface SceneState` in the source. -/
structure SceneState where
  model : Option String
  modelMetadata : Option ModelMetadata
  transform : Option String
  camera : Option String
deriving DecidableEq, Repr

/-- The state a room is created with, and the state `clear` resets to:
`{model: null, modelMetadata: null, transform: null, camera: null}`. -/
def emptyScene : SceneState :=
  { model := none, modelMetadata := none, transform := none, camera := none }

/-- A tagged `scene:action` message.  `unknownTag` stands for any
`action.type` not matched by the switch. -/
inductive SceneAction where
  | loadModel (payload : Option String) (metadata : Option ModelMetadata)
  | transform (payload : Option String)
  | camera (payload : Option String)
  | clear
  | unknownTag (tag : String)
deriving DecidableEq, Repr

/-- The argument passed to a `scene:action` acknowledgment callback:
`{success, error?}`. -/
structure Ack where
  success : Bool
  error : Option String
deriving DecidableEq, Repr

/-- Server-to-client messages relevant to the claims. -/
inductive ServerMsg where
  | modelIncoming (metadata : Option ModelMetadata) (size : Nat)
      (sender : Option String)
  | sceneInit (model : Option String) (transform : Option String)
      (camera : Option String)
  | sceneUpdate (action : SceneAction) (sender : String)
  | signalMsg (sender : String) (signal : String)
deriving DecidableEq, Repr

/-- Association-list lookup, embedding `record[key]` reads on the
module-level maps (`undefined` becomes `none`). -/
def lookupA {α : Type} : List (String × α) → String → Option α
  | [], _ => none
  | (k, v) :: t, k' => if k = k' then some v else lookupA t k'

/-- Association-list write, embedding `record[key] = value`. -/
def setA {α : Type} : List (String × α) → String → α → List (String × α)
  | [], k, v => [(k, v)]
  | (k', v') :: t, k, v =>
      if k' = k then (k, v) :: t else (k', v') :: setA t k v

/-- Association-list delete, embedding `delete record[key]`. -/
def eraseA {α : Type} (l : List (String × α)) (k : String) :
    List (String × α) :=
  l.filter (fun p => p.1 ≠ k)

/-- The derived default metadata of the `loadModel` case:
`action.metadata || {name: "unknown", size: modelData?.length || 0}`
(no `type` field). -/
def defaultMetadata (payload : Option String) : ModelMetadata :=
  { name := "unknown", size := (payload.map String.length).getD 0,
    mtype := none }

/-- The `switch (action.type)` body of the `scene:action` handler, for a
sender already known to be in a room.  Input: the sender's id and the
current `roomScenes[roomId]` entry (if any).  Output: the value written
back to `roomScenes[roomId]` (`none` when the case performs no write),
the messages broadcast to the room, and the acknowledgment passed to
the callback.  The `loadModel` case with a `null` payload writes the
new state, then throws `TypeError` evaluating `modelData.length` before
any broadcast; the catch converts the throw into a failure ack. -/
def processSceneAction (senderId : String) (store : Option SceneState)
    (a : SceneAction) : Option SceneState × List ServerMsg × Ack :=
  match a with
  | .loadModel payload meta =>
      let metadata := meta.getD (defaultMetadata payload)
      let newState : SceneState :=
        { model := payload, modelMetadata := some metadata,
          transform := none, camera := none }
      match payload with
      | none =>
          (some newState, [],
           { success := false,
             error := some
               "TypeError: Cannot read properties of null (reading length)" })
      | some s =>
          (some newState,
           [ .modelIncoming (some metadata) s.length (some senderId),
             .sceneUpdate a senderId ],
           { success := true, error := none })
  | .camera payload =>
      (store.map (fun st => { st with camera := payload }),
       [ .sceneUpdate a senderId ],
       { success := true, error := none })
  | .transform payload =>
      (store.map (fun st => { st with transform := payload }),
       [ .sceneUpdate a senderId ],
       { success := true, error := none })
  | .clear =>
      (some emptyScene,
       [ .sceneUpdate a senderId ],
       { success := true, error := none })
  | .unknownTag _ =>
      (none, [],
       { success := false, error := some "Unknown action" })

/-- The whole server state held in module-level variables: `roomScenes`,
`socketRooms`, and the socket.io room membership (pairs of room id and
socket id) consulted by the disconnect cleanup via `allSockets()`. -/
structure ServerState where
  roomScenes : List (String × SceneState)
  socketRooms : List (String × String)
  members : List (String × String)
deriving DecidableEq, Repr

def initServer : ServerState :=
  { roomScenes := [], socketRooms := [], members := [] }

/-- The socket ids currently in room `r` (socket.io's
`io.in(r).allSockets()`). -/
def membersOf (s : ServerState) (r : String) : List String :=
  (s.members.filter (fun p => p.1 = r)).map (fun p => p.2)

/-- The full `scene:action` handler: resolves the sender's room through
`socketRooms`; a sender in no room gets `{success: false, error: "Not
in a room"}` and nothing else happens.  Otherwise the switch body runs
and its write-back (if any) is applied to `roomScenes`. -/
def sceneActionHandler (s : ServerState) (senderId : String)
    (a : SceneAction) : ServerState × List ServerMsg × Ack :=
  match lookupA s.socketRooms senderId with
  | none => (s, [], { success := false, error := some "Not in a room" })
  | some roomId =>
      match processSceneAction senderId (lookupA s.roomScenes roomId) a with
      | (writeback, msgs, ack) =>
          (match writeback with
           | none => (s, msgs, ack)
           | some st =>
               ({ s with roomScenes := setA s.roomScenes roomId st },
                msgs, ack))

/-- The messages the `join` handler emits to the joining socket itself,
in order, as a function of the room's scene state at join time (after
the create-if-absent step, which only ever creates `emptyScene`).
The guard is `if (sceneState.model)`, a JavaScript truthiness test: it
passes only when the stored model is non-null AND non-empty (the empty
string is falsy), and then the handler sends `scene:model-incoming
{metadata, size: model.length}` followed by `scene:init {model,
transform, camera}`; otherwise it sends nothing. -/
def joinEmits (s : ServerState) (roomId : String) : List ServerMsg :=
  let scene := (lookupA s.roomScenes roomId).getD emptyScene
  match scene.model with
  | some m =>
      if m = "" then []
      else
        [ .modelIncoming scene.modelMetadata m.length none,
          .sceneInit (some m) scene.transform scene.camera ]
  | none => []

/-- One inbound server event (the `signal` handler touches no server
state and is embedded separately as `signalHandler`). -/
inductive Event where
  | join (socketId roomId : String)
  | action (socketId : String) (a : SceneAction)
  | disconnect (socketId : String)
deriving DecidableEq, Repr

/-- The state transition of one event.

`join`: `socket.join(roomId)` (idempotent membership add),
`socketRooms[socket.id] = roomId`, create `roomScenes[roomId]` with
`emptyScene` if absent.

`action`: the `scene:action` handler.

`disconnect`: socket.io removes the socket from every room before the
`disconnect` event fires; then, if `socketRooms` knows the socket's
room, the handler deletes the `socketRooms` entry and, if
`io.in(roomId).allSockets()` is now empty, deletes
`roomScenes[roomId]`. -/
def step (s : ServerState) (e : Event) : ServerState :=
  match e with
  | .join x r =>
      { roomScenes :=
          if (lookupA s.roomScenes r).isSome then s.roomScenes
          else (r, emptyScene) :: s.roomScenes,
        socketRooms := setA s.socketRooms x r,
        members :=
          if (r, x) ∈ s.members then s.members else (r, x) :: s.members }
  | .action x a => (sceneActionHandler s x a).1
  | .disconnect x =>
      match lookupA s.socketRooms x with
      | none => { s with members := s.members.filter (fun p => p.2 ≠ x) }
      | some r =>
          { roomScenes :=
              if ((s.members.filter (fun p => p.2 ≠ x)).filter
                    (fun p => p.1 = r)).isEmpty then
                eraseA s.roomScenes r
              else s.roomScenes,
            socketRooms := eraseA s.socketRooms x,
            members := s.members.filter (fun p => p.2 ≠ x) }

/-- Run a trace of events from the freshly started server. -/
def run (es : List Event) : ServerState := es.foldl step initServer

/-- The delivery set of `io.to(toId).emit(...)`: `io.to` targets the
socket.io ROOM named `toId` within the namespace.  Every socket joins,
at connect time, a room named by its own id, and the `join` handler
puts sockets into caller-named rooms in the same namespace; so a
connected socket `c` receives the emit exactly when `c = toId` (its
own-id room) or `c` has joined the room named `toId`.  `conns` is the
list of currently connected socket ids; `members` is the `(roomId,
socketId)` membership of the caller-named rooms. -/
def signalRecipients (conns : List String)
    (members : List (String × String)) (toId : String) : List String :=
  conns.filter (fun c => c = toId ∨ (toId, c) ∈ members)

/-- The `signal` handler: logs `data.signal.type || "candidate"` (which
throws `TypeError` when `data.signal` is `null`, uncaught, embedded as
`Except.error`), then `io.to(data.to).emit("signal", {from, signal})`,
which delivers `{from: senderId, signal}` to every connected socket in
the io-room named `data.to` (see `signalRecipients`). -/
def signalHandler (conns : List String)
    (members : List (String × String)) (senderId toId : String)
    (sig : Option String) : Except String (List (String × ServerMsg)) :=
  match sig with
  | none =>
      .error "TypeError: Cannot read properties of null (reading type)"
  | some v =>
      .ok ((signalRecipients conns members toId).map
            (fun c => (c, .signalMsg senderId v)))

/-! ## Association-list lemmas -/

theorem lookupA_setA_self {α : Type} (l : List (String × α)) (k : String)
    (v : α) : lookupA (setA l k v) k = some v := by
  induction l with
  | nil => simp [setA, lookupA]
  | cons p t ih =>
      by_cases h : p.1 = k
      · simp [setA, h, lookupA]
      · simp [setA, h, lookupA, ih]

theorem lookupA_setA_ne {α : Type} (l : List (String × α)) (k k' : String)
    (v : α) (h : k ≠ k') : lookupA (setA l k v) k' = lookupA l k' := by
  induction l with
  | nil => simp [setA, lookupA, h]
  | cons p t ih =>
      by_cases hp : p.1 = k
      · simp [setA, hp, lookupA, h]
      · simp [setA, hp, lookupA, ih]

theorem lookupA_eraseA_self {α : Type} (l : List (String × α))
    (k : String) : lookupA (eraseA l k) k = none := by
  induction l with
  | nil => simp [eraseA, lookupA]
  | cons p t ih =>
      by_cases hp : p.1 = k
      · simpa [eraseA, hp] using ih
      · simpa [eraseA, hp, lookupA] using ih

theorem lookupA_eraseA_ne {α : Type} (l : List (String × α))
    (k k' : String) (h : k ≠ k') :
    lookupA (eraseA l k) k' = lookupA l k' := by
  induction l with
  | nil => simp [eraseA, lookupA]
  | cons p t ih =>
      simp only [eraseA, ne_eq, decide_not, List.filter] at ih ⊢
      by_cases hp : p.1 = k
      · have hne : ¬ p.1 = k' := by
          intro hc; exact h (hp ▸ hc ▸ rfl)
        simp [hp, hne, h, lookupA, ih]
      · by_cases hk' : p.1 = k'
        · simp [hp, hk', lookupA, ih, Ne.symm h]
        · simp [hp, hk', lookupA, ih]

/-! ## C1: loadModel replaces the scene state wholesale -/

/-- C1.  For every server state, every sender currently in a room, and
every processed `loadModel{payload, metadata}` action, the room's
`SceneState` afterwards is exactly `{model: payload, modelMetadata:
the given metadata or the derived default, transform: null,
camera: null}`: a wholesale replacement, independent of the previous
state, so `transform` and `camera` are null even if they were non-null
before the action. -/
theorem loadModel_replaces_wholesale (s : ServerState) (x r : String)
    (payload : Option String) (meta : Option ModelMetadata)
    (hx : lookupA s.socketRooms x = some r) :
    lookupA (sceneActionHandler s x (.loadModel payload meta)).1.roomScenes r
      = some { model := payload,
               modelMetadata := some (meta.getD (defaultMetadata payload)),
               transform := none, camera := none } := by
  cases payload <;>
    simp [sceneActionHandler, hx, processSceneAction, lookupA_setA_self]

/-- Witness for C1: a concrete room whose state holds a model, a
non-null transform and a non-null camera; a `loadModel` leaves exactly
the replaced state. -/
theorem loadModel_replaces_wholesale_witness :
    lookupA (run [.join "p1" "r1"]).socketRooms "p1" = some "r1" ∧
    lookupA (sceneActionHandler
        { roomScenes := [("r1",
            { model := some "old", modelMetadata := none,
              transform := some "T", camera := some "C" })],
          socketRooms := [("p1", "r1")], members := [("r1", "p1")] }
        "p1" (.loadModel (some "new") none)).1.roomScenes "r1"
      = some { model := some "new",
               modelMetadata := some (defaultMetadata (some "new")),
               transform := none, camera := none } := by
  refine ⟨by decide, ?_⟩
  have h := loadModel_replaces_wholesale
    { roomScenes := [("r1",
        { model := some "old", modelMetadata := none,
          transform := some "T", camera := some "C" })],
      socketRooms := [("p1", "r1")], members := [("r1", "p1")] }
    "p1" "r1" (some "new") none (by decide)
  simpa using h

/-! ## C8: transform / camera are single-field updates -/

/-- C8.  For every room whose `SceneState` exists, a `transform{payload}`
action sets `SceneState.transform` to exactly the payload and leaves
`model`, `modelMetadata` and `camera` unchanged; symmetrically a
`camera{payload}` action sets `SceneState.camera` to exactly the
payload and leaves `model`, `modelMetadata` and `transform`
unchanged. -/
theorem transform_camera_frame_effect (s : ServerState) (x r : String)
    (st : SceneState) (payload : Option String)
    (hx : lookupA s.socketRooms x = some r)
    (hst : lookupA s.roomScenes r = some st) :
    lookupA (sceneActionHandler s x (.transform payload)).1.roomScenes r
      = some { st with transform := payload } ∧
    lookupA (sceneActionHandler s x (.camera payload)).1.roomScenes r
      = some { st with camera := payload } := by
  constructor <;>
    simp [sceneActionHandler, hx, hst, processSceneAction, lookupA_setA_self]

/-- Witness for C8: in a concrete room holding a model and a camera, a
`transform` action updates only the transform field and a `camera`
action only the camera field. -/
theorem transform_camera_frame_effect_witness :
    lookupA (sceneActionHandler
        { roomScenes := [("r1",
            { model := some "M", modelMetadata := none,
              transform := some "T0", camera := some "C0" })],
          socketRooms := [("p1", "r1")], members := [("r1", "p1")] }
        "p1" (.transform (some "T1"))).1.roomScenes "r1"
      = some { model := some "M", modelMetadata := none,
               transform := some "T1", camera := some "C0" } ∧
    lookupA (sceneActionHandler
        { roomScenes := [("r1",
            { model := some "M", modelMetadata := none,
              transform := some "T0", camera := some "C0" })],
          socketRooms := [("p1", "r1")], members := [("r1", "p1")] }
        "p1" (.camera (some "C1"))).1.roomScenes "r1"
      = some { model := some "M", modelMetadata := none,
               transform := some "T0", camera := some "C1" } := by
  have h := transform_camera_frame_effect
    { roomScenes := [("r1",
        { model := some "M", modelMetadata := none,
          transform := some "T0", camera := some "C0" })],
      socketRooms := [("p1", "r1")], members := [("r1", "p1")] }
    "p1" "r1"
    { model := some "M", modelMetadata := none,
      transform := some "T0", camera := some "C0" }
    (some "T1") (by decide) (by decide)
  have h' := transform_camera_frame_effect
    { roomScenes := [("r1",
        { model := some "M", modelMetadata := none,
          transform := some "T0", camera := some "C0" })],
      socketRooms := [("p1", "r1")], members := [("r1", "p1")] }
    "p1" "r1"
    { model := some "M", modelMetadata := none,
      transform := some "T0", camera := some "C0" }
    (some "C1") (by decide) (by decide)
  exact ⟨h.1, h'.2⟩

/-! ## C10: transform / camera on a missing store entry still succeed -/

/-- C10.  For every `transform` or `camera` action from a sender whose
recorded room has no `roomScenes` entry, the handler still broadcasts
the `scene:update` message tagged with the sender's id and still
acknowledges `{success: true}`, while the store keeps no entry for that
room (the whole server state is unchanged): the success acknowledgment
does not imply the state was recorded. -/
theorem transform_camera_without_store (s : ServerState) (x r : String)
    (payload : Option String)
    (hx : lookupA s.socketRooms x = some r)
    (hst : lookupA s.roomScenes r = none) :
    sceneActionHandler s x (.transform payload)
      = (s, [.sceneUpdate (.transform payload) x],
         { success := true, error := none }) ∧
    sceneActionHandler s x (.camera payload)
      = (s, [.sceneUpdate (.camera payload) x],
         { success := true, error := none }) := by
  constructor <;> simp [sceneActionHandler, hx, hst, processSceneAction]

/-- Witness for C10: a sender whose recorded room has no scene entry
gets a success ack and a broadcast for a `transform` action, and the
state stays without an entry. -/
theorem transform_camera_without_store_witness :
    sceneActionHandler
        { roomScenes := [], socketRooms := [("p1", "r1")],
          members := [("r1", "p1")] }
        "p1" (.transform (some "T1"))
      = ({ roomScenes := [], socketRooms := [("p1", "r1")],
           members := [("r1", "p1")] },
         [.sceneUpdate (.transform (some "T1")) "p1"],
         { success := true, error := none }) := by
  exact (transform_camera_without_store
    { roomScenes := [], socketRooms := [("p1", "r1")],
      members := [("r1", "p1")] }
    "p1" "r1" (some "T1") (by decide) (by decide)).1

/-! ## C7: unknown action / sender not in a room -/

/-- C7.  For every `scene:action` bearing an unknown action type, and for
every `scene:action` sent by a peer not currently in any room, the
handler reports failure only through the acknowledgment (`{success:
false}` with an error string), broadcasts nothing, and leaves the whole
server state — in particular every room's `SceneState` — unchanged. -/
theorem unknown_or_roomless_action_rejected (s : ServerState)
    (x : String) :
    (∀ tag, ∃ err, sceneActionHandler s x (.unknownTag tag)
      = (s, [], { success := false, error := some err })) ∧
    (∀ a : SceneAction, lookupA s.socketRooms x = none →
      sceneActionHandler s x a
        = (s, [], { success := false, error := some "Not in a room" })) := by
  constructor
  · intro tag
    cases hx : lookupA s.socketRooms x with
    | none => exact ⟨"Not in a room", by simp [sceneActionHandler, hx]⟩
    | some r =>
        exact ⟨"Unknown action",
          by simp [sceneActionHandler, hx, processSceneAction]⟩
  · intro a hx
    simp [sceneActionHandler, hx]

/-- Witness for C7: an unknown action from a peer in a room, and a
`clear` from a peer in no room, both fail with an error ack, no
broadcast, and an unchanged server state. -/
theorem unknown_or_roomless_action_rejected_witness :
    (∃ err, sceneActionHandler
        { roomScenes := [("r1", emptyScene)],
          socketRooms := [("p1", "r1")], members := [("r1", "p1")] }
        "p1" (.unknownTag "unexpected")
      = ({ roomScenes := [("r1", emptyScene)],
           socketRooms := [("p1", "r1")], members := [("r1", "p1")] },
         [], { success := false, error := some err })) ∧
    sceneActionHandler initServer "p9" .clear
      = (initServer, [],
         { success := false, error := some "Not in a room" }) := by
  refine ⟨(unknown_or_roomless_action_rejected
      { roomScenes := [("r1", emptyScene)],
        socketRooms := [("p1", "r1")], members := [("r1", "p1")] }
      "p1").1 "unexpected", ?_⟩
  exact (unknown_or_roomless_action_rejected initServer "p9").2 .clear
    (by decide)

/-! ## C6: any loadModel → transform/camera* → clear sequence empties -/

/-- The store-level effect of one processed action on a room's
`roomScenes` entry: the switch body's write-back applied to the entry
(cases that perform no write leave the entry as it was). -/
def applyAction (senderId : String) (store : Option SceneState)
    (a : SceneAction) : Option SceneState :=
  match (processSceneAction senderId store a).1 with
  | some st => some st
  | none => store

/-- `transform` and `camera` actions, the ones allowed between the
`loadModel` and the `clear` of C6. -/
def isMidAction : SceneAction → Bool
  | .transform _ => true
  | .camera _ => true
  | _ => false

/-- C6.  For every room state and every processed sequence
`loadModel` then any number of `transform`/`camera` actions then
`clear`, the room's `SceneState` after the `clear` is exactly
`{model: null, modelMetadata: null, transform: null, camera: null}`,
regardless of how many transform/camera actions preceded the clear. -/
theorem load_then_edits_then_clear_empties (x : String)
    (store : Option SceneState) (payload : Option String)
    (meta : Option ModelMetadata) (mids : List SceneAction)
    (hmids : ∀ a ∈ mids, isMidAction a = true) :
    List.foldl (applyAction x) store
        (SceneAction.loadModel payload meta :: mids ++ [SceneAction.clear])
      = some emptyScene := by
  have h : ∀ s : Option SceneState,
      applyAction x s SceneAction.clear = some emptyScene := by
    intro s; simp [applyAction, processSceneAction]
  simp [List.foldl_append, h]

/-- Witness for C6: a concrete sequence with one transform and one
camera action between the load and the clear ends in the empty scene
state. -/
theorem load_then_edits_then_clear_empties_witness :
    (∀ a ∈ [SceneAction.transform (some "T"),
            SceneAction.camera (some "C")], isMidAction a = true) ∧
    List.foldl (applyAction "p1")
        (some { model := some "old", modelMetadata := none,
                transform := some "T0", camera := some "C0" })
        (SceneAction.loadModel (some "X") none ::
          [SceneAction.transform (some "T"),
           SceneAction.camera (some "C")] ++ [SceneAction.clear])
      = some emptyScene := by
  refine ⟨by decide, ?_⟩
  exact load_then_edits_then_clear_empties "p1"
    (some { model := some "old", modelMetadata := none,
            transform := some "T0", camera := some "C0" })
    (some "X") none
    [SceneAction.transform (some "T"), SceneAction.camera (some "C")]
    (by decide)

/-! ## C3: exceptions are caught and reported, but not atomically -/

/-- Counterexample for C3.  The claim says a failed action leaves the
room's `SceneState` unchanged.  Concretely: the room `"r1"` holds a
scene with a model, transform and camera; its member `"p1"` sends
`loadModel` with a `null` payload; the switch body replaces the state
and then throws on `modelData.length`, so the handler acknowledges
failure — yet the stored `SceneState` afterwards differs from its value
before the action. -/
theorem failed_action_changes_state_counterexample :
    (sceneActionHandler
        { roomScenes := [("r1",
            { model := some "X", modelMetadata := none,
              transform := some "T", camera := some "C" })],
          socketRooms := [("p1", "r1")], members := [("r1", "p1")] }
        "p1" (SceneAction.loadModel none none)).2.2.success = false ∧
    lookupA (sceneActionHandler
        { roomScenes := [("r1",
            { model := some "X", modelMetadata := none,
              transform := some "T", camera := some "C" })],
          socketRooms := [("p1", "r1")], members := [("r1", "p1")] }
        "p1" (SceneAction.loadModel none none)).1.roomScenes "r1"
      ≠ some { model := some "X", modelMetadata := none,
               transform := some "T", camera := some "C" } := by
  constructor
  · rfl
  · intro h
    simp [sceneActionHandler, processSceneAction, lookupA,
      lookupA_setA_self] at h

/-- C3 (amended).  Every exception thrown inside the `scene:action`
switch (the only throwing case is `loadModel` with a null payload,
which throws evaluating `modelData.length`) is caught at the action
boundary and reported to the sender as `{success: false, error}`;
nothing is broadcast and the connection bookkeeping (`socketRooms`,
membership) is untouched, so connection and room stay alive — but the
action is not atomic: the room's `SceneState` has already been
wholesale-replaced with
`{model: null, modelMetadata: metadata or derived default,
transform: null, camera: null}` before the throw. -/
theorem throwing_action_caught_but_not_atomic (s : ServerState)
    (x r : String) (meta : Option ModelMetadata)
    (hx : lookupA s.socketRooms x = some r) :
    (sceneActionHandler s x (.loadModel none meta)).2.2
      = { success := false,
          error := some
            "TypeError: Cannot read properties of null (reading length)" } ∧
    (sceneActionHandler s x (.loadModel none meta)).2.1 = [] ∧
    lookupA (sceneActionHandler s x (.loadModel none meta)).1.roomScenes r
      = some { model := none,
               modelMetadata := some (meta.getD (defaultMetadata none)),
               transform := none, camera := none } ∧
    (sceneActionHandler s x (.loadModel none meta)).1.socketRooms
      = s.socketRooms ∧
    (sceneActionHandler s x (.loadModel none meta)).1.members
      = s.members := by
  refine ⟨?_, ?_, ?_, ?_, ?_⟩ <;>
    simp [sceneActionHandler, hx, processSceneAction, lookupA_setA_self]

/-- Witness for the amended C3: the concrete throwing action of the
counterexample is acknowledged as a failure, broadcasts nothing, leaves
the membership alive, and leaves the replaced (not restored) state. -/
theorem throwing_action_caught_but_not_atomic_witness :
    (sceneActionHandler
        { roomScenes := [("r1",
            { model := some "X", modelMetadata := none,
              transform := some "T", camera := some "C" })],
          socketRooms := [("p1", "r1")], members := [("r1", "p1")] }
        "p1" (SceneAction.loadModel none none)).2.2
      = { success := false,
          error := some
            "TypeError: Cannot read properties of null (reading length)" } ∧
    lookupA (sceneActionHandler
        { roomScenes := [("r1",
            { model := some "X", modelMetadata := none,
              transform := some "T", camera := some "C" })],
          socketRooms := [("p1", "r1")], members := [("r1", "p1")] }
        "p1" (SceneAction.loadModel none none)).1.roomScenes "r1"
      = some { model := none,
               modelMetadata := some (defaultMetadata none),
               transform := none, camera := none } := by
  have h := throwing_action_caught_but_not_atomic
    { roomScenes := [("r1",
        { model := some "X", modelMetadata := none,
          transform := some "T", camera := some "C" })],
      socketRooms := [("p1", "r1")], members := [("r1", "p1")] }
    "p1" "r1" none (by decide)
  exact ⟨h.1, h.2.2.1⟩

/-! ## C5: signal routing through io.to's room semantics -/

theorem filter_eq_singleton_of_nodup {l : List String} {a : String}
    (hn : l.Nodup) (ha : a ∈ l) :
    l.filter (fun c => c = a) = [a] := by
  induction l with
  | nil => cases ha
  | cons b t ih =>
      rcases List.nodup_cons.mp hn with ⟨hbt, hnt⟩
      by_cases hb : b = a
      · subst hb
        have hnone : t.filter (fun c => c = b) = [] := by
          rw [List.filter_eq_nil_iff]
          intro c hc hcb
          exact hbt ((by simpa using hcb) ▸ hc)
        simp [List.filter, hnone]
      · have hat : a ∈ t := by
          rcases List.mem_cons.mp ha with h | h
          · exact absurd h.symm hb
          · exact h
        simpa [List.filter, hb] using ih hnt hat

/-- Counterexample for C5.  The claim says a signal is delivered to the
connection identified by `to` iff it exists and to no other room
member, and silently dropped when no such connection exists.  But
`io.to(data.to)` targets the ROOM named `data.to`: concretely, with
connected sockets `a`, `b`, `c` of which `b` and `c` joined the room
`"r1"`, and no connection whose id is `"r1"`, a signal from `a` with
`to = "r1"` is delivered to both `b` and `c` instead of being silently
dropped. -/
theorem signal_to_room_name_counterexample :
    "r1" ∉ ["a", "b", "c"] ∧
    signalHandler ["a", "b", "c"] [("r1", "b"), ("r1", "c")]
        "a" "r1" (some "sdp-offer")
      = .ok [("b", .signalMsg "a" "sdp-offer"),
             ("c", .signalMsg "a" "sdp-offer")] := by
  refine ⟨by decide, rfl⟩

/-- C5 (amended).  For every signal message `{to, signal}` with a
non-null payload, the handler raises no error to the sender and
delivers `{from: senderId, signal}` exactly to the connected sockets in
the io-room named `to` — the connection whose id is `to` plus every
socket that joined a caller-named room called `to` — and to nobody
else.  When `to` names no connection and no joined room, the message is
silently dropped.  In particular, when `to` is a connected socket id
and no socket joined a room named `to`, delivery is exactly to that one
connection.  (The original claim's exact-destination/silent-drop
behaviour therefore holds only when `to` does not collide with a
caller-named room, as the counterexample shows.) -/
theorem signal_delivered_to_io_room (conns : List String)
    (members : List (String × String)) (sender toId v : String) :
    (∀ c : String,
      (c, ServerMsg.signalMsg sender v)
          ∈ ((signalHandler conns members sender toId (some v)).toOption.getD
              [])
        ↔ c ∈ conns ∧ (c = toId ∨ (toId, c) ∈ members)) ∧
    (toId ∉ conns → (∀ p ∈ members, p.1 ≠ toId) →
      signalHandler conns members sender toId (some v) = .ok []) ∧
    (conns.Nodup → toId ∈ conns → (∀ p ∈ members, p.1 ≠ toId) →
      signalHandler conns members sender toId (some v)
        = .ok [(toId, .signalMsg sender v)]) := by
  refine ⟨?_, ?_, ?_⟩
  · intro c
    simp only [signalHandler, signalRecipients, Except.toOption,
      Option.getD_some, List.mem_map, List.mem_filter]
    constructor
    · rintro ⟨c', hc', heq⟩
      have hcc : c' = c := (Prod.mk.injEq _ _ _ _ ▸ heq).1
      subst hcc
      exact ⟨hc'.1, by simpa using hc'.2⟩
    · rintro ⟨h1, h2⟩
      exact ⟨c, ⟨h1, by simpa using h2⟩, rfl⟩
  · intro hto hroom
    have hnil : signalRecipients conns members toId = [] := by
      rw [signalRecipients, List.filter_eq_nil_iff]
      intro c hc hcond
      rcases (by simpa using hcond : c = toId ∨ (toId, c) ∈ members) with
        h | h
      · exact hto (h ▸ hc)
      · exact hroom (toId, c) h rfl
    simp [signalHandler, hnil]
  · intro hnd hto hroom
    have hone : signalRecipients conns members toId = [toId] := by
      rw [signalRecipients]
      have hiff : ∀ c : String,
          (c = toId ∨ (toId, c) ∈ members) ↔ c = toId := by
        intro c
        constructor
        · rintro (h | h)
          · exact h
          · exact absurd rfl (hroom (toId, c) h)
        · exact Or.inl
      calc conns.filter (fun c => c = toId ∨ (toId, c) ∈ members)
          = conns.filter (fun c => c = toId) := by
            apply List.filter_congr
            intro c _
            simp [hiff c]
        _ = [toId] := filter_eq_singleton_of_nodup hnd hto
    simp [signalHandler, hone]

/-- Witness for the amended C5: a signal to the connected socket `b`
(no room named `b`) reaches exactly `b`; a signal to the unknown name
`z` (no connection, no room) is silently dropped; and `c` receives a
signal addressed to room `r1` it joined. -/
theorem signal_delivered_to_io_room_witness :
    signalHandler ["a", "b"] [("r1", "a"), ("r1", "b")] "a" "b"
        (some "sdp-offer")
      = .ok [("b", .signalMsg "a" "sdp-offer")] ∧
    signalHandler ["a", "b"] [("r1", "a"), ("r1", "b")] "a" "z"
        (some "sdp-offer")
      = .ok [] ∧
    (("c", ServerMsg.signalMsg "a" "ice") ∈
        ((signalHandler ["a", "b", "c"] [("r1", "c")] "a" "r1"
            (some "ice")).toOption.getD [])
      ↔ "c" ∈ ["a", "b", "c"] ∧
        ("c" = "r1" ∨ ("r1", "c") ∈ [("r1", "c")])) := by
  refine ⟨?_, ?_, ?_⟩
  · exact (signal_delivered_to_io_room ["a", "b"]
      [("r1", "a"), ("r1", "b")] "a" "b" "sdp-offer").2.2
      (by decide) (by decide) (by decide)
  · exact (signal_delivered_to_io_room ["a", "b"]
      [("r1", "a"), ("r1", "b")] "a" "z" "sdp-offer").2.1
      (by decide) (by decide)
  · exact (signal_delivered_to_io_room ["a", "b", "c"]
      [("r1", "c")] "a" "r1" "ice").1 "c"

/-! ## C9: the signal handler is not exception-free on null payloads -/

/-- Counterexample for C9.  The claim says handling an inbound signal
message of any payload shape — including a null `signal` field — never
lets an exception escape the handler's scope.  Concretely, with
connections `a` and `b`, a signal from `a` to `b` whose `signal` field
is null makes the handler's logging expression `data.signal.type` throw
a `TypeError` that escapes the handler uncaught (the handler does not
return normally). -/
theorem null_signal_throws_counterexample :
    signalHandler ["a", "b"] [("r1", "a"), ("r1", "b")] "a" "b" none
      = Except.error
          "TypeError: Cannot read properties of null (reading type)" := by
  rfl

/-- C9 (amended).  For every inbound signal message whose `signal` field
is non-null, no exception escapes the handler, and the payload is
forwarded as an opaque blob: every delivered message carries the
sender's id and the payload unmodified.  (A message whose `signal`
field is null or missing instead makes the handler's logging access
`data.signal.type` throw an uncaught `TypeError`.) -/
theorem nonnull_signal_never_throws (conns : List String)
    (members : List (String × String)) (sender toId v : String) :
    ∃ l, signalHandler conns members sender toId (some v) = .ok l ∧
      ∀ p ∈ l, p.2 = ServerMsg.signalMsg sender v := by
  refine ⟨(signalRecipients conns members toId).map
      (fun c => (c, .signalMsg sender v)), rfl, ?_⟩
  intro p hp
  rcases List.mem_map.mp hp with ⟨c, _, hc⟩
  rw [← hc]

/-! ## C2: room teardown on last disconnect -/

/-- The trace refuting C2: socket `x` joins room `r1`, loads a model,
then joins room `r2` (the `join` handler records `socketRooms[x] = r2`
without leaving `r1`), then disconnects.  The disconnect cleanup only
checks `r2`, so `r1` keeps its `SceneState` with zero members. -/
def roomSwitchTrace : List Event :=
  [ .join "x" "r1",
    .action "x" (SceneAction.loadModel (some "X") none),
    .join "x" "r2",
    .disconnect "x" ]

/-- Counterexample for C2.  After `roomSwitchTrace`, room `r1` has zero
members, yet its `SceneState` persists (still holding the loaded
model), and a subsequent joiner to `r1` receives the two-message
`scene:model-incoming` / `scene:init` handshake instead of observing a
fresh empty state with no `scene:init`. -/
theorem zero_member_room_persists_counterexample :
    membersOf (run roomSwitchTrace) "r1" = [] ∧
    lookupA (run roomSwitchTrace).roomScenes "r1"
      = some { model := some "X",
               modelMetadata := some (defaultMetadata (some "X")),
               transform := none, camera := none } ∧
    joinEmits (run roomSwitchTrace) "r1" ≠ [] := by
  refine ⟨by decide, by decide, by decide⟩

/-- C2 (amended).  For every room `r`, when its last member `x`
disconnects while `r` is still `x`'s currently recorded room (`x` has
not since joined another room), the room's `SceneState` is deleted, its
member set is empty, and any subsequent join to the same identifier
observes a fresh empty `SceneState` with no `scene:init` handshake sent
to the joiner.  (Without that proviso the claim fails: a socket that
re-joins a different room leaves its previous room's `SceneState`
behind with zero members, as the counterexample shows.) -/
theorem last_member_disconnect_deletes_room (s : ServerState)
    (x r y : String)
    (hx : lookupA s.socketRooms x = some r)
    (honly : ∀ p ∈ s.members, p.1 = r → p.2 = x) :
    lookupA (step s (.disconnect x)).roomScenes r = none ∧
    membersOf (step s (.disconnect x)) r = [] ∧
    joinEmits (step s (.disconnect x)) r = [] ∧
    lookupA (step (step s (.disconnect x)) (.join y r)).roomScenes r
      = some emptyScene := by
  have hempty :
      (s.members.filter (fun p => p.2 ≠ x)).filter (fun p => p.1 = r)
        = [] := by
    rw [List.filter_eq_nil_iff]
    intro p hp
    have hmem := (List.mem_filter.mp hp).1
    have hne : p.2 ≠ x := by
      have := (List.mem_filter.mp hp).2
      simpa using this
    intro hr
    exact hne (honly p hmem (by simpa using hr))
  have hscene :
      (step s (.disconnect x)).roomScenes = eraseA s.roomScenes r := by
    unfold step
    simp only [hx]
    rw [hempty]
    rfl
  have hmem2 :
      (step s (.disconnect x)).members
        = s.members.filter (fun p => p.2 ≠ x) := by
    unfold step
    simp only [hx]
  have hlook : lookupA (step s (.disconnect x)).roomScenes r = none := by
    rw [hscene]; exact lookupA_eraseA_self _ _
  refine ⟨hlook, ?_, ?_, ?_⟩
  · unfold membersOf
    rw [hmem2, hempty]
    rfl
  · simp [joinEmits, hlook, emptyScene]
  · have h2 : (lookupA (step s (.disconnect x)).roomScenes r).isSome
        = false := by
      rw [hlook]; rfl
    conv_lhs =>
      rw [show step (step s (.disconnect x)) (.join y r)
            = { roomScenes :=
                  if (lookupA (step s (.disconnect x)).roomScenes r).isSome
                  then (step s (.disconnect x)).roomScenes
                  else (r, emptyScene) :: (step s (.disconnect x)).roomScenes,
                socketRooms :=
                  setA (step s (.disconnect x)).socketRooms y r,
                members :=
                  if (r, y) ∈ (step s (.disconnect x)).members
                  then (step s (.disconnect x)).members
                  else (r, y) :: (step s (.disconnect x)).members }
          from rfl]
    rw [h2]
    simp [lookupA]

/-- Witness for the amended C2: socket `x` alone in room `r1` with a
loaded model disconnects while `r1` is its recorded room; the room's
state is gone, the member set is empty, and a fresh joiner `y` gets no
handshake and a fresh empty state. -/
theorem last_member_disconnect_deletes_room_witness :
    lookupA (step (run [.join "x" "r1",
        .action "x" (SceneAction.loadModel (some "X") none)])
        (.disconnect "x")).roomScenes "r1" = none ∧
    membersOf (step (run [.join "x" "r1",
        .action "x" (SceneAction.loadModel (some "X") none)])
        (.disconnect "x")) "r1" = [] ∧
    joinEmits (step (run [.join "x" "r1",
        .action "x" (SceneAction.loadModel (some "X") none)])
        (.disconnect "x")) "r1" = [] ∧
    lookupA (step (step (run [.join "x" "r1",
        .action "x" (SceneAction.loadModel (some "X") none)])
        (.disconnect "x")) (.join "y" "r1")).roomScenes "r1"
      = some emptyScene := by
  exact last_member_disconnect_deletes_room
    (run [.join "x" "r1",
      .action "x" (SceneAction.loadModel (some "X") none)])
    "x" "r1" "y" (by decide) (by decide)

/-! ## C4: the join handshake replays the last successful loadModel -/

/-- Ghost bookkeeping for C4: after each event, the payload of the last
successfully applied `loadModel` per room.  A `loadModel` from a sender
in a room with a non-null payload is the successful case (it is the one
that reaches the broadcasts and the `{success: true}` ack); every other
event leaves the record unchanged. -/
def lastLoadAcc (s : ServerState) (acc : List (String × String)) :
    Event → List (String × String)
  | .action x (.loadModel (some m) _) =>
      match lookupA s.socketRooms x with
      | some r => setA acc r m
      | none => acc
  | _ => acc

/-- One step of the paired (server state, last-load record) fold. -/
def lastLoadStep (p : ServerState × List (String × String)) (e : Event) :
    ServerState × List (String × String) :=
  (step p.1 e, lastLoadAcc p.1 p.2 e)

/-- The payload of the last successfully applied `loadModel` for room
`r` over a whole trace. -/
def lastLoad (es : List Event) (r : String) : Option String :=
  lookupA (es.foldl lastLoadStep (initServer, [])).2 r

theorem lastLoadStep_fst (es : List Event) :
    ∀ p : ServerState × List (String × String),
      (es.foldl lastLoadStep p).1 = es.foldl step p.1 := by
  induction es with
  | nil => intro p; rfl
  | cons e t ih => intro p; exact ih (lastLoadStep p e)

/-- The C4 coupling invariant: whenever a room's stored scene holds a
non-null model, the last-load record holds exactly that payload for
that room. -/
def ModelTracks (s : ServerState) (acc : List (String × String)) : Prop :=
  ∀ r st m, lookupA s.roomScenes r = some st → st.model = some m →
    lookupA acc r = some m

theorem modelTracks_step (s : ServerState)
    (acc : List (String × String)) (e : Event)
    (h : ModelTracks s acc) :
    ModelTracks (step s e) (lastLoadAcc s acc e) := by
  intro r st m hlook hmodel
  cases e with
  | join x r0 =>
      by_cases h0 : (lookupA s.roomScenes r0).isSome
      · have : lookupA s.roomScenes r = some st := by
          simpa [step, h0] using hlook
        exact h r st m this hmodel
      · rw [show lastLoadAcc s acc (.join x r0) = acc from rfl]
        by_cases hr : r0 = r
        · subst hr
          have : lookupA ((r0, emptyScene) :: s.roomScenes) r0 = some st := by
            simpa [step, h0] using hlook
          have hst : st = emptyScene := by
            have h2 : emptyScene = st := by simpa [lookupA] using this
            exact h2.symm
          rw [hst] at hmodel
          simp [emptyScene] at hmodel
        · have : lookupA s.roomScenes r = some st := by
            have hl : lookupA ((r0, emptyScene) :: s.roomScenes) r
                = some st := by
              simpa [step, h0] using hlook
            simpa [lookupA, hr] using hl
          exact h r st m this hmodel
  | disconnect x =>
      rw [show lastLoadAcc s acc (.disconnect x) = acc from rfl]
      cases hx : lookupA s.socketRooms x with
      | none =>
          have : lookupA s.roomScenes r = some st := by
            have := hlook
            unfold step at this
            simp only [hx] at this
            exact this
          exact h r st m this hmodel
      | some r0 =>
          have hl : lookupA
              (if ((s.members.filter (fun p => p.2 ≠ x)).filter
                    (fun p => p.1 = r0)).isEmpty then
                 eraseA s.roomScenes r0
               else s.roomScenes) r = some st := by
            have := hlook
            unfold step at this
            simp only [hx] at this
            exact this
          by_cases hc : ((s.members.filter (fun p => p.2 ≠ x)).filter
              (fun p => p.1 = r0)).isEmpty
          · rw [if_pos hc] at hl
            by_cases hr : r0 = r
            · subst hr
              rw [lookupA_eraseA_self] at hl
              cases hl
            · rw [lookupA_eraseA_ne _ _ _ hr] at hl
              exact h r st m hl hmodel
          · rw [if_neg hc] at hl
            exact h r st m hl hmodel
  | action x a =>
      cases hx : lookupA s.socketRooms x with
      | none =>
          have hst : lookupA s.roomScenes r = some st := by
            have := hlook
            simp only [step, sceneActionHandler, hx] at this
            exact this
          have hacc : lastLoadAcc s acc (.action x a) = acc := by
            cases a with
            | loadModel payload meta =>
                cases payload with
                | none => rfl
                | some m0 => simp [lastLoadAcc, hx]
            | transform p => rfl
            | camera p => rfl
            | clear => rfl
            | unknownTag t => rfl
          rw [hacc]
          exact h r st m hst hmodel
      | some r0 =>
          cases a with
          | loadModel payload meta =>
              cases payload with
              | some m0 =>
                  have hacc : lastLoadAcc s acc
                      (.action x (.loadModel (some m0) meta))
                        = setA acc r0 m0 := by
                    simp [lastLoadAcc, hx]
                  have hsc : (step s (.action x (.loadModel (some m0) meta))
                      ).roomScenes
                        = setA s.roomScenes r0
                            { model := some m0,
                              modelMetadata := some
                                (meta.getD (defaultMetadata (some m0))),
                              transform := none, camera := none } := by
                    simp [step, sceneActionHandler, hx, processSceneAction]
                  rw [hacc]
                  rw [hsc] at hlook
                  by_cases hr : r0 = r
                  · subst hr
                    rw [lookupA_setA_self] at hlook
                    have hst2 := Option.some.inj hlook
                    rw [← hst2] at hmodel
                    simp only [] at hmodel
                    have : m = m0 := by
                      simpa using hmodel.symm
                    rw [this]
                    exact lookupA_setA_self _ _ _
                  · rw [lookupA_setA_ne _ _ _ _ hr] at hlook
                    rw [lookupA_setA_ne _ _ _ _ hr]
                    exact h r st m hlook hmodel
              | none =>
                  have hacc : lastLoadAcc s acc
                      (.action x (.loadModel none meta)) = acc := rfl
                  have hsc : (step s (.action x (.loadModel none meta))
                      ).roomScenes
                        = setA s.roomScenes r0
                            { model := none,
                              modelMetadata := some
                                (meta.getD (defaultMetadata none)),
                              transform := none, camera := none } := by
                    simp [step, sceneActionHandler, hx, processSceneAction]
                  rw [hacc]
                  rw [hsc] at hlook
                  by_cases hr : r0 = r
                  · subst hr
                    rw [lookupA_setA_self] at hlook
                    have hst2 := Option.some.inj hlook
                    rw [← hst2] at hmodel
                    simp at hmodel
                  · rw [lookupA_setA_ne _ _ _ _ hr] at hlook
                    exact h r st m hlook hmodel
          | clear =>
              have hsc : (step s (.action x .clear)).roomScenes
                  = setA s.roomScenes r0 emptyScene := by
                simp [step, sceneActionHandler, hx, processSceneAction]
              rw [show lastLoadAcc s acc (.action x .clear) = acc from rfl]
              rw [hsc] at hlook
              by_cases hr : r0 = r
              · subst hr
                rw [lookupA_setA_self] at hlook
                have hst2 := Option.some.inj hlook
                rw [← hst2] at hmodel
                simp [emptyScene] at hmodel
              · rw [lookupA_setA_ne _ _ _ _ hr] at hlook
                exact h r st m hlook hmodel
          | unknownTag t =>
              have hsc : (step s (.action x (.unknownTag t))).roomScenes
                  = s.roomScenes := by
                simp [step, sceneActionHandler, hx, processSceneAction]
              rw [show lastLoadAcc s acc (.action x (.unknownTag t)) = acc
                from rfl]
              rw [hsc] at hlook
              exact h r st m hlook hmodel
          | transform p =>
              rw [show lastLoadAcc s acc (.action x (.transform p)) = acc
                from rfl]
              cases hs0 : lookupA s.roomScenes r0 with
              | none =>
                  have hsc : (step s (.action x (.transform p))).roomScenes
                      = s.roomScenes := by
                    simp [step, sceneActionHandler, hx, hs0,
                      processSceneAction]
                  rw [hsc] at hlook
                  exact h r st m hlook hmodel
              | some st0 =>
                  have hsc : (step s (.action x (.transform p))).roomScenes
                      = setA s.roomScenes r0 { st0 with transform := p } := by
                    simp [step, sceneActionHandler, hx, hs0,
                      processSceneAction]
                  rw [hsc] at hlook
                  by_cases hr : r0 = r
                  · subst hr
                    rw [lookupA_setA_self] at hlook
                    have hst2 := Option.some.inj hlook
                    rw [← hst2] at hmodel
                    have hm0 : st0.model = some m := by
                      simpa using hmodel
                    exact h r0 st0 m hs0 hm0
                  · rw [lookupA_setA_ne _ _ _ _ hr] at hlook
                    exact h r st m hlook hmodel
          | camera p =>
              rw [show lastLoadAcc s acc (.action x (.camera p)) = acc
                from rfl]
              cases hs0 : lookupA s.roomScenes r0 with
              | none =>
                  have hsc : (step s (.action x (.camera p))).roomScenes
                      = s.roomScenes := by
                    simp [step, sceneActionHandler, hx, hs0,
                      processSceneAction]
                  rw [hsc] at hlook
                  exact h r st m hlook hmodel
              | some st0 =>
                  have hsc : (step s (.action x (.camera p))).roomScenes
                      = setA s.roomScenes r0 { st0 with camera := p } := by
                    simp [step, sceneActionHandler, hx, hs0,
                      processSceneAction]
                  rw [hsc] at hlook
                  by_cases hr : r0 = r
                  · subst hr
                    rw [lookupA_setA_self] at hlook
                    have hst2 := Option.some.inj hlook
                    rw [← hst2] at hmodel
                    have hm0 : st0.model = some m := by
                      simpa using hmodel
                    exact h r0 st0 m hs0 hm0
                  · rw [lookupA_setA_ne _ _ _ _ hr] at hlook
                    exact h r st m hlook hmodel

theorem modelTracks_run (es : List Event) :
    ModelTracks (run es) (es.foldl lastLoadStep (initServer, [])).2 := by
  have main : ∀ (l : List Event)
      (p : ServerState × List (String × String)),
      ModelTracks p.1 p.2 →
      ModelTracks (l.foldl lastLoadStep p).1 (l.foldl lastLoadStep p).2 := by
    intro l
    induction l with
    | nil => intro p hp; exact hp
    | cons e t ih =>
        intro p hp
        exact ih (lastLoadStep p e) (modelTracks_step p.1 p.2 e hp)
  have h0 : ModelTracks initServer [] := by
    intro r st m hl _
    simp [initServer, lookupA] at hl
  have hmain := main es (initServer, []) h0
  rw [lastLoadStep_fst es (initServer, [])] at hmain
  exact hmain

/-- Counterexample for C4.  The claim asserts the two-message handshake
for every joiner of a room whose stored model is non-null.  But the
join guard `if (sceneState.model)` is a JavaScript truthiness test, and
the empty string is falsy.  Concretely: `x` joins `r1` and sends
`loadModel` with the empty-string payload, which is applied and
acknowledged `{success: true}` (`"".length` is `0`, nothing throws), so
the stored model is the non-null `""` — yet a subsequent joiner of `r1`
receives no `scene:model-incoming` and no `scene:init` at all. -/
theorem empty_model_no_handshake_counterexample :
    (sceneActionHandler (run [.join "x" "r1"]) "x"
        (SceneAction.loadModel (some "") none)).2.2
      = { success := true, error := none } ∧
    lookupA (run [.join "x" "r1",
        .action "x" (SceneAction.loadModel (some "") none)]).roomScenes "r1"
      = some { model := some "",
               modelMetadata := some (defaultMetadata (some "")),
               transform := none, camera := none } ∧
    joinEmits (run [.join "x" "r1",
        .action "x" (SceneAction.loadModel (some "") none)]) "r1" = [] := by
  refine ⟨by decide, by decide, by decide⟩

/-- C4 (amended).  For every trace of processed events and every room
whose stored `SceneState.model` is non-null AND non-empty, a peer
joining that room is sent, in order, first a `scene:model-incoming`
message carrying the stored `modelMetadata` and the model's size, then
a `scene:init` message whose `model` field is exactly (byte-identical
to) the payload of the last successfully applied `loadModel` for that
room; a peer joining a room whose model is null — or the empty string,
which the join guard's truthiness test also skips — receives no
`scene:init` (no handshake message at all). -/
theorem join_handshake_replays_last_load :
    (∀ (es : List Event) (r : String) (st : SceneState) (m : String),
      lookupA (run es).roomScenes r = some st →
      st.model = some m → m ≠ "" →
      joinEmits (run es) r
        = [ServerMsg.modelIncoming st.modelMetadata m.length none,
           ServerMsg.sceneInit (some m) st.transform st.camera] ∧
      lastLoad es r = some m) ∧
    (∀ (s : ServerState) (r : String),
      (((lookupA s.roomScenes r).getD emptyScene).model = none ∨
       ((lookupA s.roomScenes r).getD emptyScene).model = some "") →
      joinEmits s r = []) := by
  constructor
  · intro es r st m hl hm hne
    refine ⟨?_, ?_⟩
    · simp [joinEmits, hl, hm, hne]
    · exact modelTracks_run es r st m hl hm
  · intro s r hm
    rcases hm with hm | hm <;> simp [joinEmits, hm]

/-- Witness for the amended C4: after a trace in which `x` joins `r1`
and loads the non-empty model `"X"`, a joiner of `r1` is sent the
model-incoming notice and a `scene:init` carrying `"X"`, which is also
the last successful load; a joiner of a fresh room gets nothing. -/
theorem join_handshake_replays_last_load_witness :
    (joinEmits (run [.join "x" "r1",
        .action "x" (SceneAction.loadModel (some "X") none)]) "r1"
      = [ServerMsg.modelIncoming (some (defaultMetadata (some "X")))
           ("X".length) none,
         ServerMsg.sceneInit (some "X") none none] ∧
     lastLoad [.join "x" "r1",
        .action "x" (SceneAction.loadModel (some "X") none)] "r1"
      = some "X") ∧
    joinEmits initServer "r1" = [] := by
  refine ⟨?_, ?_⟩
  · have h := join_handshake_replays_last_load.1
      [.join "x" "r1", .action "x" (SceneAction.loadModel (some "X") none)]
      "r1"
      { model := some "X",
        modelMetadata := some (defaultMetadata (some "X")),
        transform := none, camera := none }
      "X" (by decide) rfl (by decide)
    simpa using h
  · exact join_handshake_replays_last_load.2 initServer "r1"
      (Or.inl (by decide))
